import Mathlib

/-!
Verification of the HAWKI exposure-time calculator (`etc_module_hmbp.py`).

The Python class `HAWKI_ETC` is embedded shallowly:

* the configuration stored by `__init__` becomes the structure `HAWKI_ETC`;
  the derived constants computed in `__init__` become functions of it;
* the external `hmbp` photometry library is an abstract collaborator,
  modelled by the structure `PhotSvc` holding one real-valued function per
  `hmbp` entry point used by the code;
* `numpy` floats are modelled by real numbers; where the non-real float
  values NaN and ±∞ matter (`np.log10` on a non-positive argument) the
  inductive `NpFloat` records them explicitly;
* a Python function that can raise is embedded as a function into
  `Except String _`; the stdout/stderr redirection performed by
  `sky_noise` is embedded by explicit state passing over `PyStreams`.
-/

open Real

noncomputable section

/-- The abstract photometry collaborator (the `hmbp` library).
`in_skycalc_background filter airmass pwv` is the sky background surface
brightness, `for_flux_in_filter filter mag instrument observatory` the photon
flux of a source of brightness `mag`, and
`in_zero_vega_mags filter instrument observatory` the zero-point photon flux. -/
structure PhotSvc where
  in_skycalc_background : String → ℝ → ℝ → ℝ
  for_flux_in_filter : String → ℝ → String → String → ℝ
  in_zero_vega_mags : String → String → String → ℝ

/-- The configuration stored by `HAWKI_ETC.__init__` (`etc_module_hmbp.py`,
lines 15-27): the six constructor arguments.  The constructor performs no
validation, so the embedding is a total function of six reals. -/
structure HAWKI_ETC where
  exposure_time : ℝ
  airmass : ℝ
  pwv : ℝ
  seeing : ℝ
  obstruction_factor : ℝ
  reflectance_factor : ℝ

namespace HAWKI_ETC

/-- `self.telescope_size = np.pi * (4 * u.m) ** 2` (line 29). -/
def telescope_size (_e : HAWKI_ETC) : ℝ := Real.pi * 4 ^ 2

/-- `self.efficiency_factor = self.obstruction_factor * self.reflectance_factor`
(line 32). -/
def efficiency_factor (e : HAWKI_ETC) : ℝ :=
  e.obstruction_factor * e.reflectance_factor

/-- `self.collection_area = self.telescope_size * self.efficiency_factor`
(line 33). -/
def collection_area (e : HAWKI_ETC) : ℝ :=
  e.telescope_size * e.efficiency_factor

/-- `self.quantum_efficiency = 0.9 * (u.electron / u.ph)` (line 34). -/
def quantum_efficiency (_e : HAWKI_ETC) : ℝ := 0.9

/-- `self.pixel_scale = 0.106 * u.arcsec / u.pixel` (line 35). -/
def pixel_scale (_e : HAWKI_ETC) : ℝ := 0.106

/-- `self.aper = np.pi * self.seeing ** 2.0` (line 36). -/
def aper (e : HAWKI_ETC) : ℝ := Real.pi * e.seeing ^ 2

/-- Value computed by `sky_noise` (lines 38-60) from the background returned
by `hmbp.in_skycalc_background`:
`sky_aper = sky * quantum_efficiency * exposure_time * collection_area * aper`.
The stdout/stderr redirection surrounding the lookup is modelled separately by
`sky_noiseRun`; it does not affect this value. -/
def sky_noise (e : HAWKI_ETC) (svc : PhotSvc) (filter_name : String) : ℝ :=
  let sky := svc.in_skycalc_background filter_name e.airmass e.pwv
  sky * e.quantum_efficiency * e.exposure_time * e.collection_area * e.aper

/-- `dark_current_noise` (lines 62-70):
`n_pix = aper / pixel_scale ** 2`, dark current rate `0.0125` electrons per
second per squared pixel, `dark_aper = dark_current * n_pix * exposure_time`. -/
def dark_current_noise (e : HAWKI_ETC) : ℝ :=
  let n_pix := e.aper / e.pixel_scale ^ 2
  0.0125 * n_pix * e.exposure_time

/-- `read_noise` (lines 72-80): squared read noise over the aperture,
`(8.5)^2 * n_pix` with `n_pix = aper / pixel_scale ** 2`. -/
def read_noise (e : HAWKI_ETC) : ℝ :=
  let n_pix := e.aper / e.pixel_scale ^ 2
  8.5 ^ 2 * n_pix

/-- `compute_sn` (lines 82-98): signal electrons from the photon flux returned
by `hmbp.for_flux_in_filter(filter, flux, instrument="HAWKI",
observatory="Paranal")`, then
`snr = signal / sqrt(signal + sky_noise + dark_current_noise + read_noise)`.
`np.sqrt` of a negative float is NaN and a float divided by NaN is NaN; the
real-valued embedding uses Mathlib's `Real.sqrt` (zero on negatives), so a
degenerate negative variance yields division by zero, i.e. the junk value `0`
standing for the non-real Python result. -/
def compute_sn (e : HAWKI_ETC) (svc : PhotSvc) (star_flux : ℝ)
    (filter_name : String) : ℝ :=
  let photons := svc.for_flux_in_filter filter_name star_flux "HAWKI" "Paranal"
  let signal := photons * e.collection_area * e.quantum_efficiency * e.exposure_time
  let total_noise := Real.sqrt
    (signal + e.sky_noise svc filter_name + e.dark_current_noise + e.read_noise)
  signal / total_noise

end HAWKI_ETC

/-- The result of `np.log10` on a float: a finite real, `-inf` (argument `0`,
with a RuntimeWarning, not an exception), or NaN (negative argument, likewise
only a warning).  `posinf` is reachable after multiplication by `-2.5`. -/
inductive NpFloat where
  | fin (x : ℝ)
  | nan
  | neginf
  | posinf

/-- `np.log10` on a float scalar: never raises; `log10 0 = -inf`,
`log10 x = nan` for `x < 0`. -/
def np_log10 (x : ℝ) : NpFloat :=
  if 0 < x then .fin (Real.logb 10 x)
  else if x = 0 then .neginf
  else .nan

/-- Multiplication of an IEEE float by the constant `-2.5`. -/
def negTwoPointFiveTimes : NpFloat → NpFloat
  | .fin x => .fin (-2.5 * x)
  | .nan => .nan
  | .neginf => .posinf
  | .posinf => .neginf

namespace HAWKI_ETC

/-- The zero-point electron flux computed by `flux_to_mag` (line 107):
`F0_electron = zero_point_flux_photon * collection_area * quantum_efficiency *
exposure_time`. -/
def F0_electron (e : HAWKI_ETC) (zero_point_flux_photon : ℝ) : ℝ :=
  zero_point_flux_photon * e.collection_area * e.quantum_efficiency * e.exposure_time

/-- `flux_to_mag` (lines 100-110): `-2.5 * np.log10(flux / F0_electron)`.
Dividing a Python float by `0.0` raises `ZeroDivisionError`; otherwise the
function returns normally — `np.log10` of a non-positive ratio produces the
float NaN (or `-inf`) with a RuntimeWarning, it does not raise. -/
def flux_to_mag (e : HAWKI_ETC) (flux : ℝ) (zero_point_flux_photon : ℝ) :
    Except String NpFloat :=
  let F0 := e.F0_electron zero_point_flux_photon
  if F0 = 0 then .error "ZeroDivisionError"
  else .ok (negTwoPointFiveTimes (np_log10 (flux / F0)))

/-- `detectable_star_brightness` (lines 112-135): noise floor
`sqrt(sky_noise + dark_current_noise + read_noise)` (no signal term),
`required_flux = desired_sn * total_noise`, zero point from
`hmbp.in_zero_vega_mags(filter, "HAWKI", "Paranal")`, result via
`flux_to_mag`. -/
def detectable_star_brightness (e : HAWKI_ETC) (svc : PhotSvc)
    (desired_sn : ℝ) (filter_name : String) : Except String NpFloat :=
  let total_noise := Real.sqrt
    (e.sky_noise svc filter_name + e.dark_current_noise + e.read_noise)
  let required_flux := desired_sn * total_noise
  let zero_point_flux_photon := svc.in_zero_vega_mags filter_name "HAWKI" "Paranal"
  e.flux_to_mag required_flux zero_point_flux_photon

end HAWKI_ETC

/-- A stream a write can currently be directed to: the stdout/stderr objects
that were installed when `sky_noise` was entered (`caller`), or the fresh
`io.StringIO()` buffers it installs (`buffer`). -/
inductive StreamTarget where
  | caller
  | buffer
deriving DecidableEq

/-- The mutable stream state touched by `sky_noise`: which objects
`sys.stdout` / `sys.stderr` currently reference, and the accumulated contents
of the caller-visible streams and of the two `StringIO` buffers. -/
structure PyStreams where
  sys_stdout : StreamTarget
  sys_stderr : StreamTarget
  callerOut : List String
  callerErr : List String
  bufOut : List String
  bufErr : List String
deriving DecidableEq

/-- Writing one line to whatever `sys.stdout` currently references. -/
def emitOut (s : PyStreams) (msg : String) : PyStreams :=
  match s.sys_stdout with
  | .caller => { s with callerOut := s.callerOut ++ [msg] }
  | .buffer => { s with bufOut := s.bufOut ++ [msg] }

/-- Writing one line to whatever `sys.stderr` currently references. -/
def emitErr (s : PyStreams) (msg : String) : PyStreams :=
  match s.sys_stderr with
  | .caller => { s with callerErr := s.callerErr ++ [msg] }
  | .buffer => { s with bufErr := s.bufErr ++ [msg] }

/-- Observable behaviour of one `hmbp.in_skycalc_background` call: the warning
lines it prints to the interpreter's current stdout and stderr, and its
outcome (a sky background value, or a raised exception). -/
structure LookupBehavior where
  warnOut : List String
  warnErr : List String
  result : Except String ℝ

/-- Executing the `hmbp.in_skycalc_background` call in stream state `s`: its
warnings go to whichever streams `sys.stdout` / `sys.stderr` reference at that
moment, then it returns or raises according to `beh.result`. -/
def runSkycalc (beh : LookupBehavior) (s : PyStreams) :
    Except String ℝ × PyStreams :=
  let s1 := beh.warnOut.foldl emitOut s
  let s2 := beh.warnErr.foldl emitErr s1
  (beh.result, s2)

namespace HAWKI_ETC

/-- `sky_noise` (lines 38-60) with its stream effects made explicit, following
the source line by line: save `sys.stdout` / `sys.stderr`, point both at fresh
`io.StringIO()` buffers, run the lookup under `try`, restore both references
in the `finally` block on every exit path, then either propagate the raised
exception or return `sky * quantum_efficiency * exposure_time *
collection_area * aper`. -/
def sky_noiseRun (e : HAWKI_ETC) (beh : LookupBehavior) (s : PyStreams) :
    Except String ℝ × PyStreams :=
  let old_stdout := s.sys_stdout
  let old_stderr := s.sys_stderr
  let sIn := { s with sys_stdout := StreamTarget.buffer,
                      sys_stderr := StreamTarget.buffer }
  let res := (runSkycalc beh sIn).1
  let sMid := (runSkycalc beh sIn).2
  let sOut := { sMid with sys_stdout := old_stdout, sys_stderr := old_stderr }
  match res with
  | .error exc => (.error exc, sOut)
  | .ok sky =>
      (.ok (sky * e.quantum_efficiency * e.exposure_time * e.collection_area *
        e.aper), sOut)

end HAWKI_ETC

/-- One observable action of `plot` (lines 137-166), in program order. -/
inductive PlotEffect where
  | scatterPts (snrValues : List ℝ)
  | axhlineAt (y : ℝ)
  | savefigTo (filename : String)
  | showFig
deriving DecidableEq

/-- Whether an effect is the persistence call `plt.savefig`. -/
def isSavefigEff : PlotEffect → Bool
  | .savefigTo _ => true
  | _ => false

/-- A Python value passed as the `filename` argument: a `str`, or a value of
any other type. -/
inductive PyVal where
  | pyStr (s : String)
  | pyOther
deriving DecidableEq

namespace HAWKI_ETC

/-- `brightness_list = np.arange(26, 8, -0.1)` (line 147): the 180 values
`26, 25.9, ..., 8.1`. -/
def brightness_list : List ℝ :=
  (List.range 180).map (fun k => 26 - 0.1 * (k : ℝ))

/-- `plot` (lines 137-166): scatter the SNR curve, draw the horizontal line
when `snr` is numeric, then — only when `savefig` is true — either call
`plt.savefig(filename)` when `filename` is a `str` or raise `TypeError`
before any persistence call; `plt.show()` runs on the non-raising paths.
The embedding returns the effects performed in order, paired with the raised
exception if any. -/
def plot (e : HAWKI_ETC) (svc : PhotSvc) (snr : Option ℝ) (savefig : Bool)
    (filename : PyVal) : List PlotEffect × Option String :=
  let snr_aper_list := brightness_list.map (fun b => e.compute_sn svc b "Ks")
  let effsDrawn := [PlotEffect.scatterPts snr_aper_list] ++
    (match snr with
     | some y => [PlotEffect.axhlineAt y]
     | none => [])
  if savefig then
    match filename with
    | .pyStr name =>
        (effsDrawn ++ [PlotEffect.savefigTo name, PlotEffect.showFig], none)
    | .pyOther => (effsDrawn, some "TypeError")
  else
    (effsDrawn ++ [PlotEffect.showFig], none)

end HAWKI_ETC

/-- The default constructor arguments of `__init__` (line 15):
`exposure_time=3600`, `airmass=2.0`, `pwv=5.0`, `seeing=0.8`,
`obstruction_factor=1`, `reflectance_factor=1`. -/
def defaultETC : HAWKI_ETC := ⟨3600, 2, 5, 0.8, 1, 1⟩

/-- A configuration chosen so that `collection_area * quantum_efficiency *
exposure_time = 1` (obstruction factor `10 / (144π)` cancels the telescope
area) and `seeing = pixel_scale`, giving `n_pix = π`.  Used to evaluate the
model at concrete inputs. -/
def unitETC : HAWKI_ETC := ⟨1, 2, 5, 0.106, 10 / (144 * Real.pi), 1⟩

/-- A photometry collaborator returning sky background `0` and flux `1`
everywhere. -/
def svcZeroSky : PhotSvc :=
  ⟨fun _ _ _ => 0, fun _ _ _ _ => 1, fun _ _ _ => 1⟩

/-- A photometry collaborator returning `1` everywhere. -/
def svcOne : PhotSvc :=
  ⟨fun _ _ _ => 1, fun _ _ _ _ => 1, fun _ _ _ => 1⟩

/-- A photometry collaborator whose photon flux is non-increasing in the
magnitude argument but negative: flux `-1` for magnitudes `≤ 0` and `-300`
otherwise, with zero sky background. -/
def cexSvc : PhotSvc :=
  ⟨fun _ _ _ => 0, fun _ b _ _ => if b ≤ 0 then -1 else -300, fun _ _ _ => 1⟩

lemma unitETC_collection_area : unitETC.collection_area = 10 / 9 := by
  have hπ : Real.pi ≠ 0 := Real.pi_ne_zero
  simp only [HAWKI_ETC.collection_area, HAWKI_ETC.telescope_size,
    HAWKI_ETC.efficiency_factor, unitETC]
  field_simp
  ring

lemma unitETC_F0 : unitETC.F0_electron 1 = 1 := by
  simp only [HAWKI_ETC.F0_electron, HAWKI_ETC.quantum_efficiency,
    unitETC_collection_area]
  norm_num [unitETC]

lemma unitETC_aper : unitETC.aper = Real.pi * 0.106 ^ 2 := by
  simp [HAWKI_ETC.aper, unitETC]

lemma unitETC_dark : unitETC.dark_current_noise = 0.0125 * Real.pi := by
  simp only [HAWKI_ETC.dark_current_noise, HAWKI_ETC.pixel_scale, unitETC_aper]
  have h : Real.pi * 0.106 ^ 2 / 0.106 ^ 2 = Real.pi := by
    field_simp
  rw [h]
  norm_num [unitETC]

lemma unitETC_read : unitETC.read_noise = 72.25 * Real.pi := by
  simp only [HAWKI_ETC.read_noise, HAWKI_ETC.pixel_scale, unitETC_aper]
  have h : Real.pi * 0.106 ^ 2 / 0.106 ^ 2 = Real.pi := by
    field_simp
  rw [h]
  norm_num

/-- C1: `compute_sn` returns `signal / sqrt(signal + sky_noise +
dark_current_noise + read_noise)` where `signal` is the photon flux from
`for_flux_in_filter` times `collection_area * quantum_efficiency *
exposure_time`; the signal and sky electron counts, the dark-current electron
count, and the read-noise variance enter the variance sum as themselves. -/
theorem compute_sn_formula (e : HAWKI_ETC) (svc : PhotSvc) (b : ℝ)
    (f : String) :
    e.compute_sn svc b f =
      (svc.for_flux_in_filter f b "HAWKI" "Paranal" * e.collection_area *
        e.quantum_efficiency * e.exposure_time) /
      Real.sqrt
        (svc.for_flux_in_filter f b "HAWKI" "Paranal" * e.collection_area *
          e.quantum_efficiency * e.exposure_time +
         e.sky_noise svc f + e.dark_current_noise + e.read_noise) := rfl

/-- C3: `detectable_star_brightness` uses the noise floor
`sky_noise + dark_current_noise + read_noise` with no signal term, sets the
required signal to `desired_sn * sqrt(noise_floor)`, queries the photometry
collaborator for the zero point and returns `flux_to_mag` of the required
signal and that zero point. -/
theorem detectable_star_brightness_formula (e : HAWKI_ETC) (svc : PhotSvc)
    (desired_sn : ℝ) (f : String) :
    e.detectable_star_brightness svc desired_sn f =
      e.flux_to_mag
        (desired_sn * Real.sqrt
          (e.sky_noise svc f + e.dark_current_noise + e.read_noise))
        (svc.in_zero_vega_mags f "HAWKI" "Paranal") := rfl

/-- C9: the constructor is a total function of its six arguments — it raises
for no input, performs no validation, and merely stores the inputs and
computes the derived constants from them. -/
theorem init_stores_inputs (et am pw se ob re : ℝ) :
    (HAWKI_ETC.mk et am pw se ob re).exposure_time = et ∧
    (HAWKI_ETC.mk et am pw se ob re).airmass = am ∧
    (HAWKI_ETC.mk et am pw se ob re).pwv = pw ∧
    (HAWKI_ETC.mk et am pw se ob re).seeing = se ∧
    (HAWKI_ETC.mk et am pw se ob re).obstruction_factor = ob ∧
    (HAWKI_ETC.mk et am pw se ob re).reflectance_factor = re ∧
    (HAWKI_ETC.mk et am pw se ob re).telescope_size = Real.pi * 4 ^ 2 ∧
    (HAWKI_ETC.mk et am pw se ob re).efficiency_factor = ob * re ∧
    (HAWKI_ETC.mk et am pw se ob re).collection_area =
      Real.pi * 4 ^ 2 * (ob * re) ∧
    (HAWKI_ETC.mk et am pw se ob re).quantum_efficiency = 0.9 ∧
    (HAWKI_ETC.mk et am pw se ob re).pixel_scale = 0.106 ∧
    (HAWKI_ETC.mk et am pw se ob re).aper = Real.pi * se ^ 2 :=
  ⟨rfl, rfl, rfl, rfl, rfl, rfl, rfl, rfl, rfl, rfl, rfl, rfl⟩

/-- C7: with `savefig=True`, a non-string filename raises `TypeError` before
any `plt.savefig` call is attempted, and a string filename leads to a
`plt.savefig` call with no exception. -/
theorem plot_savefig_validates_filename (e : HAWKI_ETC) (svc : PhotSvc)
    (snr : Option ℝ) (name : String) :
    (e.plot svc snr true PyVal.pyOther).2 = some "TypeError" ∧
    ((e.plot svc snr true PyVal.pyOther).1.any isSavefigEff) = false ∧
    (e.plot svc snr true (PyVal.pyStr name)).2 = none ∧
    PlotEffect.savefigTo name ∈ (e.plot svc snr true (PyVal.pyStr name)).1 := by
  cases snr <;> simp [HAWKI_ETC.plot, isSavefigEff]

/-- C10: with `savefig=False` the filename is never inspected — the result is
identical for every filename value and no exception is raised. -/
theorem plot_no_savefig_ignores_filename (e : HAWKI_ETC) (svc : PhotSvc)
    (snr : Option ℝ) (f1 f2 : PyVal) :
    e.plot svc snr false f1 = e.plot svc snr false f2 ∧
    (e.plot svc snr false f1).2 = none := by
  cases snr <;> simp [HAWKI_ETC.plot]

lemma foldl_emitOut_buffer (l : List String) (s : PyStreams)
    (h : s.sys_stdout = StreamTarget.buffer) :
    (l.foldl emitOut s).sys_stdout = StreamTarget.buffer ∧
    (l.foldl emitOut s).sys_stderr = s.sys_stderr ∧
    (l.foldl emitOut s).callerOut = s.callerOut ∧
    (l.foldl emitOut s).callerErr = s.callerErr := by
  induction l generalizing s with
  | nil => exact ⟨h, rfl, rfl, rfl⟩
  | cons m t ih =>
      have hstep : emitOut s m = { s with bufOut := s.bufOut ++ [m] } := by
        simp [emitOut, h]
      have hrec := ih (emitOut s m) (by rw [hstep]; exact h)
      simpa [hstep] using hrec

lemma foldl_emitErr_buffer (l : List String) (s : PyStreams)
    (h : s.sys_stderr = StreamTarget.buffer) :
    (l.foldl emitErr s).sys_stdout = s.sys_stdout ∧
    (l.foldl emitErr s).sys_stderr = StreamTarget.buffer ∧
    (l.foldl emitErr s).callerOut = s.callerOut ∧
    (l.foldl emitErr s).callerErr = s.callerErr := by
  induction l generalizing s with
  | nil => exact ⟨rfl, h, rfl, rfl⟩
  | cons m t ih =>
      have hstep : emitErr s m = { s with bufErr := s.bufErr ++ [m] } := by
        simp [emitErr, h]
      have hrec := ih (emitErr s m) (by rw [hstep]; exact h)
      simpa [hstep] using hrec

/-- C4: `sky_noise` wraps the background lookup in a redirection of stdout
and stderr that is restored on every exit path — whether the lookup returns
or raises, the final stream references equal the initial ones and nothing the
lookup printed reaches the caller-visible streams.  The returned value is
`beh.result` mapped through the pure electron-count formula, so it does not
depend on the diagnostics, and a raised error propagates unchanged. -/
theorem sky_noise_scoped_redirection (e : HAWKI_ETC) (beh : LookupBehavior)
    (s : PyStreams) :
    (e.sky_noiseRun beh s).2.sys_stdout = s.sys_stdout ∧
    (e.sky_noiseRun beh s).2.sys_stderr = s.sys_stderr ∧
    (e.sky_noiseRun beh s).2.callerOut = s.callerOut ∧
    (e.sky_noiseRun beh s).2.callerErr = s.callerErr ∧
    (e.sky_noiseRun beh s).1 = beh.result.map (fun sky =>
      sky * e.quantum_efficiency * e.exposure_time * e.collection_area *
        e.aper) := by
  obtain ⟨ho1, ho2, ho3, ho4⟩ := foldl_emitOut_buffer beh.warnOut
    { s with sys_stdout := StreamTarget.buffer,
             sys_stderr := StreamTarget.buffer } rfl
  obtain ⟨he1, he2, he3, he4⟩ := foldl_emitErr_buffer beh.warnErr
    (beh.warnOut.foldl emitOut
      { s with sys_stdout := StreamTarget.buffer,
               sys_stderr := StreamTarget.buffer })
    (ho2.trans rfl)
  cases hres : beh.result with
  | error exc =>
      refine ⟨?_, ?_, ?_, ?_, ?_⟩ <;>
        simp [HAWKI_ETC.sky_noiseRun, runSkycalc, hres, Except.map,
          he3, he4, ho3, ho4]
  | ok sky =>
      refine ⟨?_, ?_, ?_, ?_, ?_⟩ <;>
        simp [HAWKI_ETC.sky_noiseRun, runSkycalc, hres, Except.map,
          he3, he4, ho3, ho4]

/-- C6: for a valid configuration (positive exposure time and seeing,
nonnegative efficiency factors) and a nonnegative sky background from the
photometry collaborator, all three noise terms are nonnegative. -/
theorem noise_terms_nonneg (e : HAWKI_ETC) (svc : PhotSvc) (f : String)
    (ht : 0 < e.exposure_time) (hs : 0 < e.seeing)
    (hob : 0 ≤ e.obstruction_factor) (hre : 0 ≤ e.reflectance_factor)
    (hsky : 0 ≤ svc.in_skycalc_background f e.airmass e.pwv) :
    0 ≤ e.sky_noise svc f ∧ 0 ≤ e.dark_current_noise ∧ 0 ≤ e.read_noise := by
  have haper : 0 ≤ e.aper := by
    simp only [HAWKI_ETC.aper]
    positivity
  have hA : 0 ≤ e.collection_area := by
    simp only [HAWKI_ETC.collection_area, HAWKI_ETC.telescope_size,
      HAWKI_ETC.efficiency_factor]
    have hts : (0:ℝ) ≤ Real.pi * 4 ^ 2 := by positivity
    exact mul_nonneg hts (mul_nonneg hob hre)
  have hnp : 0 ≤ e.aper / e.pixel_scale ^ 2 := by
    apply div_nonneg haper
    simp only [HAWKI_ETC.pixel_scale]
    norm_num
  refine ⟨?_, ?_, ?_⟩
  · simp only [HAWKI_ETC.sky_noise, HAWKI_ETC.quantum_efficiency]
    exact mul_nonneg
      (mul_nonneg (mul_nonneg (mul_nonneg hsky (by norm_num)) ht.le) hA) haper
  · simp only [HAWKI_ETC.dark_current_noise]
    exact mul_nonneg (mul_nonneg (by norm_num) hnp) ht.le
  · simp only [HAWKI_ETC.read_noise]
    exact mul_nonneg (by norm_num) hnp

/-- Witness for C6 at the default configuration with zero sky background. -/
theorem noise_terms_nonneg_witness :
    0 ≤ defaultETC.sky_noise svcZeroSky "Ks" ∧
    0 ≤ defaultETC.dark_current_noise ∧ 0 ≤ defaultETC.read_noise :=
  noise_terms_nonneg defaultETC svcZeroSky "Ks"
    (by norm_num [defaultETC]) (by norm_num [defaultETC])
    (by norm_num [defaultETC]) (by norm_num [defaultETC])
    (by norm_num [svcZeroSky])

/-- C8: with all other constructor arguments fixed and a strictly larger
(positive) seeing, the photometric aperture is strictly larger, and — given a
positive exposure time, positive efficiency factors and a positive sky
background value — each of the three noise terms is strictly larger as well. -/
theorem seeing_increase_increases_noise (et am pw s1 s2 ob re : ℝ)
    (svc : PhotSvc) (f : String)
    (hs1 : 0 < s1) (h12 : s1 < s2) (ht : 0 < et)
    (hob : 0 < ob) (hre : 0 < re)
    (hsky : 0 < svc.in_skycalc_background f am pw) :
    (HAWKI_ETC.mk et am pw s1 ob re).aper <
      (HAWKI_ETC.mk et am pw s2 ob re).aper ∧
    (HAWKI_ETC.mk et am pw s1 ob re).sky_noise svc f <
      (HAWKI_ETC.mk et am pw s2 ob re).sky_noise svc f ∧
    (HAWKI_ETC.mk et am pw s1 ob re).dark_current_noise <
      (HAWKI_ETC.mk et am pw s2 ob re).dark_current_noise ∧
    (HAWKI_ETC.mk et am pw s1 ob re).read_noise <
      (HAWKI_ETC.mk et am pw s2 ob re).read_noise := by
  have hsq : s1 ^ 2 < s2 ^ 2 := by nlinarith
  have haper : Real.pi * s1 ^ 2 < Real.pi * s2 ^ 2 :=
    mul_lt_mul_of_pos_left hsq Real.pi_pos
  have hnp : Real.pi * s1 ^ 2 / (0.106:ℝ) ^ 2 <
      Real.pi * s2 ^ 2 / (0.106:ℝ) ^ 2 := by
    rw [div_eq_mul_inv, div_eq_mul_inv]
    exact mul_lt_mul_of_pos_right haper (by norm_num)
  refine ⟨?_, ?_, ?_, ?_⟩
  · simpa [HAWKI_ETC.aper] using haper
  · simp only [HAWKI_ETC.sky_noise, HAWKI_ETC.quantum_efficiency,
      HAWKI_ETC.collection_area, HAWKI_ETC.telescope_size,
      HAWKI_ETC.efficiency_factor, HAWKI_ETC.aper]
    have hcoef : 0 < svc.in_skycalc_background f am pw * 0.9 * et *
        (Real.pi * 4 ^ 2 * (ob * re)) :=
      mul_pos (mul_pos (mul_pos hsky (by norm_num)) ht)
        (mul_pos (by positivity) (mul_pos hob hre))
    exact mul_lt_mul_of_pos_left haper hcoef
  · simp only [HAWKI_ETC.dark_current_noise, HAWKI_ETC.pixel_scale,
      HAWKI_ETC.aper]
    exact mul_lt_mul_of_pos_right (mul_lt_mul_of_pos_left hnp (by norm_num)) ht
  · simp only [HAWKI_ETC.read_noise, HAWKI_ETC.pixel_scale, HAWKI_ETC.aper]
    exact mul_lt_mul_of_pos_left hnp (by norm_num)

/-- Witness for C8: default configuration versus the same with seeing doubled. -/
theorem seeing_increase_witness :
    (HAWKI_ETC.mk 3600 2 5 0.8 1 1).aper <
      (HAWKI_ETC.mk 3600 2 5 1.6 1 1).aper ∧
    (HAWKI_ETC.mk 3600 2 5 0.8 1 1).sky_noise svcOne "Ks" <
      (HAWKI_ETC.mk 3600 2 5 1.6 1 1).sky_noise svcOne "Ks" ∧
    (HAWKI_ETC.mk 3600 2 5 0.8 1 1).dark_current_noise <
      (HAWKI_ETC.mk 3600 2 5 1.6 1 1).dark_current_noise ∧
    (HAWKI_ETC.mk 3600 2 5 0.8 1 1).read_noise <
      (HAWKI_ETC.mk 3600 2 5 1.6 1 1).read_noise :=
  seeing_increase_increases_noise 3600 2 5 0.8 1.6 1 1 svcOne "Ks"
    (by norm_num) (by norm_num) (by norm_num) (by norm_num) (by norm_num)
    (by norm_num [svcOne])

lemma unitETC_exposure_time : unitETC.exposure_time = 1 := rfl

lemma unitETC_sky_svcOne_nonneg : 0 ≤ unitETC.sky_noise svcOne "Ks" := by
  simp only [HAWKI_ETC.sky_noise, HAWKI_ETC.quantum_efficiency,
    unitETC_collection_area, unitETC_aper, unitETC_exposure_time, svcOne]
  positivity

/-- C2 counterexample: at the concrete configuration `unitETC` (where the
zero-point electron flux for `zero_point_flux_photon = 1` equals `1`) and the
negative flux `-1`, the ratio passed to the logarithm is non-positive, yet
`flux_to_mag` returns normally with the float NaN — it does not fail with any
error. -/
theorem flux_to_mag_returns_nan_not_error :
    (-1 : ℝ) / unitETC.F0_electron 1 ≤ 0 ∧
    unitETC.flux_to_mag (-1) 1 = Except.ok NpFloat.nan := by
  constructor
  · rw [unitETC_F0]; norm_num
  · simp only [HAWKI_ETC.flux_to_mag, unitETC_F0]
    norm_num [np_log10, negTwoPointFiveTimes]

/-- C2 amended: `flux_to_mag` computes `F0_electron = zero_point_flux_photon *
collection_area * quantum_efficiency * exposure_time` and returns
`-2.5 * log10(flux / F0_electron)`; when the ratio is non-positive it returns
the non-real float NaN (negative ratio) or `+inf` (zero ratio) with only a
RuntimeWarning, rather than failing; the only failure is `ZeroDivisionError`
when `F0_electron = 0`. -/
theorem flux_to_mag_behaviour (e : HAWKI_ETC) (flux zp : ℝ)
    (hF0 : e.F0_electron zp ≠ 0) :
    (0 < flux / e.F0_electron zp →
      e.flux_to_mag flux zp =
        Except.ok (NpFloat.fin
          (-2.5 * Real.logb 10 (flux / e.F0_electron zp)))) ∧
    (flux / e.F0_electron zp = 0 →
      e.flux_to_mag flux zp = Except.ok NpFloat.posinf) ∧
    (flux / e.F0_electron zp < 0 →
      e.flux_to_mag flux zp = Except.ok NpFloat.nan) := by
  refine ⟨fun h => ?_, fun h => ?_, fun h => ?_⟩
  · simp [HAWKI_ETC.flux_to_mag, hF0, np_log10, negTwoPointFiveTimes, h]
  · simp [HAWKI_ETC.flux_to_mag, hF0, np_log10, negTwoPointFiveTimes, h]
  · simp [HAWKI_ETC.flux_to_mag, hF0, np_log10, negTwoPointFiveTimes,
      h.asymm, h.ne]

/-- Witness for the amended C2 theorem at a positive ratio. -/
theorem flux_to_mag_behaviour_witness :
    unitETC.flux_to_mag 10 1 =
      Except.ok (NpFloat.fin
        (-2.5 * Real.logb 10 ((10:ℝ) / unitETC.F0_electron 1))) :=
  (flux_to_mag_behaviour unitETC 10 1 (by rw [unitETC_F0]; norm_num)).1
    (by rw [unitETC_F0]; norm_num)

/-- C5 counterexample: a photometry collaborator whose photon flux is
non-increasing in magnitude (`-1` at magnitude `0`, `-300` at magnitude `1`)
and nonnegative noise terms, yet the SNR at the brighter magnitude `0` is
strictly below the SNR at the fainter magnitude `1`: the claimed monotonicity
fails when the photon flux may be negative (in Python the second SNR is NaN
and the comparison `SNR(b1) >= SNR(b2)` is likewise false). -/
theorem compute_sn_not_monotone :
    (0:ℝ) < 1 ∧
    cexSvc.for_flux_in_filter "Ks" 1 "HAWKI" "Paranal" ≤
      cexSvc.for_flux_in_filter "Ks" 0 "HAWKI" "Paranal" ∧
    0 ≤ unitETC.sky_noise cexSvc "Ks" ∧
    0 ≤ unitETC.dark_current_noise ∧
    0 ≤ unitETC.read_noise ∧
    unitETC.compute_sn cexSvc 0 "Ks" < unitETC.compute_sn cexSvc 1 "Ks" := by
  have hf0 : cexSvc.for_flux_in_filter "Ks" 0 "HAWKI" "Paranal" = -1 := by
    norm_num [cexSvc]
  have hf1 : cexSvc.for_flux_in_filter "Ks" 1 "HAWKI" "Paranal" = -300 := by
    norm_num [cexSvc]
  have hsky : unitETC.sky_noise cexSvc "Ks" = 0 := by
    simp [HAWKI_ETC.sky_noise, cexSvc]
  have hS0 : cexSvc.for_flux_in_filter "Ks" 0 "HAWKI" "Paranal" *
      unitETC.collection_area * unitETC.quantum_efficiency *
      unitETC.exposure_time = -1 := by
    rw [hf0, unitETC_collection_area]
    norm_num [HAWKI_ETC.quantum_efficiency, unitETC]
  have hS1 : cexSvc.for_flux_in_filter "Ks" 1 "HAWKI" "Paranal" *
      unitETC.collection_area * unitETC.quantum_efficiency *
      unitETC.exposure_time = -300 := by
    rw [hf1, unitETC_collection_area]
    norm_num [HAWKI_ETC.quantum_efficiency, unitETC]
  have e0 : unitETC.compute_sn cexSvc 0 "Ks" =
      (-1) / Real.sqrt (-1 + unitETC.sky_noise cexSvc "Ks" +
        unitETC.dark_current_noise + unitETC.read_noise) := by
    simp only [HAWKI_ETC.compute_sn]
    rw [hS0]
  have e1 : unitETC.compute_sn cexSvc 1 "Ks" =
      (-300) / Real.sqrt (-300 + unitETC.sky_noise cexSvc "Ks" +
        unitETC.dark_current_noise + unitETC.read_noise) := by
    simp only [HAWKI_ETC.compute_sn]
    rw [hS1]
  refine ⟨by norm_num, by rw [hf0, hf1]; norm_num, by rw [hsky],
    by rw [unitETC_dark]; positivity, by rw [unitETC_read]; positivity, ?_⟩
  rw [e0, e1, hsky, unitETC_dark, unitETC_read]
  have hz : Real.sqrt (-300 + 0 + 0.0125 * Real.pi + 72.25 * Real.pi) = 0 :=
    Real.sqrt_eq_zero'.mpr (by nlinarith [Real.pi_lt_d2])
  rw [hz, div_zero]
  exact div_neg_of_neg_of_pos (by norm_num)
    (Real.sqrt_pos.mpr (by nlinarith [Real.pi_gt_three]))

lemma div_sqrt_add_le (x y c : ℝ) (hy : 0 ≤ y) (hyx : y ≤ x) (hc : 0 ≤ c) :
    y / Real.sqrt (y + c) ≤ x / Real.sqrt (x + c) := by
  rcases lt_or_eq_of_le (by linarith : (0:ℝ) ≤ y + c) with hpos | heq
  · have hx : 0 < x + c := by linarith
    rw [div_le_div_iff₀ (Real.sqrt_pos.mpr hpos) (Real.sqrt_pos.mpr hx)]
    have h1 : y * Real.sqrt (x + c) = Real.sqrt (y ^ 2 * (x + c)) := by
      rw [Real.sqrt_mul (sq_nonneg y), Real.sqrt_sq hy]
    have h2 : x * Real.sqrt (y + c) = Real.sqrt (x ^ 2 * (y + c)) := by
      rw [Real.sqrt_mul (sq_nonneg x), Real.sqrt_sq (hy.trans hyx)]
    rw [h1, h2]
    apply Real.sqrt_le_sqrt
    nlinarith [mul_nonneg (mul_nonneg hy (hy.trans hyx)) (sub_nonneg.mpr hyx),
      mul_nonneg hc (mul_nonneg (add_nonneg hy (hy.trans hyx))
        (sub_nonneg.mpr hyx))]
  · have hy0 : y = 0 := by linarith
    have hc0 : c = 0 := by linarith
    subst hy0
    simp only [hc0, add_zero, zero_div, zero_add]
    exact div_nonneg hyx (Real.sqrt_nonneg _)

/-- C5 amended: for a fixed configuration with nonnegative collection area
and exposure time, and magnitudes `b1 < b2`, if the photometry collaborator's
photon flux is non-increasing in magnitude and nonnegative, and the three
noise terms are nonnegative, then `compute_sn` at the brighter magnitude `b1`
is at least `compute_sn` at the fainter magnitude `b2`. -/
theorem compute_sn_monotone (e : HAWKI_ETC) (svc : PhotSvc) (b1 b2 : ℝ)
    (f : String) (_hb : b1 < b2)
    (hdec : svc.for_flux_in_filter f b2 "HAWKI" "Paranal" ≤
      svc.for_flux_in_filter f b1 "HAWKI" "Paranal")
    (hpos : 0 ≤ svc.for_flux_in_filter f b2 "HAWKI" "Paranal")
    (hA : 0 ≤ e.collection_area) (ht : 0 ≤ e.exposure_time)
    (hsky : 0 ≤ e.sky_noise svc f) (hdark : 0 ≤ e.dark_current_noise)
    (hread : 0 ≤ e.read_noise) :
    e.compute_sn svc b2 f ≤ e.compute_sn svc b1 f := by
  have hqe : (0:ℝ) ≤ e.quantum_efficiency := by
    norm_num [HAWKI_ETC.quantum_efficiency]
  have hS2 : 0 ≤ svc.for_flux_in_filter f b2 "HAWKI" "Paranal" *
      e.collection_area * e.quantum_efficiency * e.exposure_time :=
    mul_nonneg (mul_nonneg (mul_nonneg hpos hA) hqe) ht
  have hS12 : svc.for_flux_in_filter f b2 "HAWKI" "Paranal" *
      e.collection_area * e.quantum_efficiency * e.exposure_time ≤
      svc.for_flux_in_filter f b1 "HAWKI" "Paranal" *
      e.collection_area * e.quantum_efficiency * e.exposure_time :=
    mul_le_mul_of_nonneg_right (mul_le_mul_of_nonneg_right
      (mul_le_mul_of_nonneg_right hdec hA) hqe) ht
  have hc : 0 ≤ e.sky_noise svc f + e.dark_current_noise + e.read_noise := by
    linarith
  have key := div_sqrt_add_le
    (svc.for_flux_in_filter f b1 "HAWKI" "Paranal" *
      e.collection_area * e.quantum_efficiency * e.exposure_time)
    (svc.for_flux_in_filter f b2 "HAWKI" "Paranal" *
      e.collection_area * e.quantum_efficiency * e.exposure_time)
    (e.sky_noise svc f + e.dark_current_noise + e.read_noise)
    hS2 hS12 hc
  have hassoc : ∀ a b c d : ℝ, a + b + c + d = a + (b + c + d) := by
    intro a b c d; ring
  simp only [HAWKI_ETC.compute_sn]
  rw [hassoc, hassoc]
  exact key

/-- Witness for the amended C5 theorem with a constant unit-flux collaborator. -/
theorem compute_sn_monotone_witness :
    unitETC.compute_sn svcOne 1 "Ks" ≤ unitETC.compute_sn svcOne 0 "Ks" :=
  compute_sn_monotone unitETC svcOne 0 1 "Ks" (by norm_num)
    (by norm_num [svcOne]) (by norm_num [svcOne])
    (by rw [unitETC_collection_area]; norm_num)
    (by norm_num [unitETC])
    unitETC_sky_svcOne_nonneg
    (by rw [unitETC_dark]; positivity)
    (by rw [unitETC_read]; positivity)
